import Mathlib

/-!
Shallow embedding of the Telugu PDF chat assistant (`main.py`) and
verification of its specification claims.

Conventions:
- Python integers (token counts, timestamps in seconds) are modelled as `ℤ`
  (or `ℕ` where the source can only produce non-negative values).
- Python float arithmetic on the cost values is modelled as exact rational
  arithmetic over `ℚ`; all rates are short decimal constants.
- Fallible operations return `Except String α` (an uncaught Python
  exception is `.error`), and operations that can return `None` return
  `Option α`.
- The remote Gemini service, the file system and the clock are modelled as
  an explicit environment (`Env`) passed to each operation.
-/

namespace TeluguPdfChat

/-! ### Cost model constants (module constants of `main.py`) -/

/-- Constant `PDF_TOKENS = 387000` (300-page PDF token estimate). -/
def PDF_TOKENS : ℚ := 387000

/-- Constant `INPUT_COST_PER_1M_TOKENS = 0.15` (rate for prompts > 128K tokens). -/
def INPUT_COST_PER_1M_TOKENS : ℚ := 0.15

/-- Constant `OUTPUT_COST_PER_1M_TOKENS = 0.60`. -/
def OUTPUT_COST_PER_1M_TOKENS : ℚ := 0.60

/-- Constant `CONTEXT_CACHING_COST_PER_1M_TOKENS = 0.0375`. -/
def CONTEXT_CACHING_COST_PER_1M_TOKENS : ℚ := 0.0375

/-- Constant `CONTEXT_CACHING_STORAGE_PER_HOUR = 0.01875`. -/
def CONTEXT_CACHING_STORAGE_PER_HOUR : ℚ := 0.01875

/-- Constant `INITIAL_UPLOAD_COST = (PDF_TOKENS / 1_000_000) * INPUT_COST_PER_1M_TOKENS`. -/
def INITIAL_UPLOAD_COST : ℚ := (PDF_TOKENS / 1000000) * INPUT_COST_PER_1M_TOKENS

/-- Constant `STORAGE_COST_PER_HOUR = (PDF_TOKENS / 1_000_000) * CONTEXT_CACHING_STORAGE_PER_HOUR`. -/
def STORAGE_COST_PER_HOUR : ℚ := (PDF_TOKENS / 1000000) * CONTEXT_CACHING_STORAGE_PER_HOUR

/-- Constant `CACHED_CONTENT_COST_PER_QUERY = (PDF_TOKENS / 1_000_000) * CONTEXT_CACHING_COST_PER_1M_TOKENS`. -/
def CACHED_CONTENT_COST_PER_QUERY : ℚ := (PDF_TOKENS / 1000000) * CONTEXT_CACHING_COST_PER_1M_TOKENS

/-- Constant `GLOBAL_CACHE_DURATION_HOURS = 24`. -/
def GLOBAL_CACHE_DURATION_HOURS : ℚ := 24

/-! ### `calculate_cost` (`main.py` lines 131-162) -/

/-- Function `calculate_cost(input_tokens, output_tokens, operation_type="query", cache_hours=0)`.
Token counts are Python integers; the result is float arithmetic, modelled
exactly over `ℚ`.  The source branches on the literal `operation_type`
strings and, inside the `"query"` branch, on the 128 000-token threshold
for the input and output sub-costs (literal rates `0.075` and `0.30` for
the ≤ 128K tier). -/
def calculate_cost (input_tokens output_tokens : ℤ) (operation_type : String)
    (cache_hours : ℚ) : ℚ :=
  if operation_type = "initial_upload" then
    INITIAL_UPLOAD_COST
  else if operation_type = "query" then
    let cached_content_cost := CACHED_CONTENT_COST_PER_QUERY
    let input_cost :=
      if input_tokens ≤ 128000 then ((input_tokens : ℚ) / 1000000) * 0.075
      else ((input_tokens : ℚ) / 1000000) * INPUT_COST_PER_1M_TOKENS
    let output_cost :=
      if output_tokens ≤ 128000 then ((output_tokens : ℚ) / 1000000) * 0.30
      else ((output_tokens : ℚ) / 1000000) * OUTPUT_COST_PER_1M_TOKENS
    cached_content_cost + input_cost + output_cost
  else if operation_type = "storage" then
    cache_hours * STORAGE_COST_PER_HOUR
  else
    0

/-- The input-token sub-cost of the `"query"` branch of `calculate_cost`,
stated separately so the decomposition of the query cost can be proved. -/
def queryInputCost (input_tokens : ℤ) : ℚ :=
  if input_tokens ≤ 128000 then ((input_tokens : ℚ) / 1000000) * 0.075
  else ((input_tokens : ℚ) / 1000000) * INPUT_COST_PER_1M_TOKENS

/-- The output-token sub-cost of the `"query"` branch of `calculate_cost`. -/
def queryOutputCost (output_tokens : ℤ) : ℚ :=
  if output_tokens ≤ 128000 then ((output_tokens : ℚ) / 1000000) * 0.30
  else ((output_tokens : ℚ) / 1000000) * OUTPUT_COST_PER_1M_TOKENS

theorem calculate_cost_query (it ot : ℤ) (ch : ℚ) :
    calculate_cost it ot "query" ch =
      CACHED_CONTENT_COST_PER_QUERY + queryInputCost it + queryOutputCost ot := by
  simp [calculate_cost, queryInputCost, queryOutputCost]

theorem queryInputCost_nonneg (it : ℤ) (h : 0 ≤ it) : 0 ≤ queryInputCost it := by
  unfold queryInputCost INPUT_COST_PER_1M_TOKENS
  have hq : (0 : ℚ) ≤ (it : ℚ) := by exact_mod_cast h
  split <;> positivity

theorem queryOutputCost_nonneg (ot : ℤ) (h : 0 ≤ ot) : 0 ≤ queryOutputCost ot := by
  unfold queryOutputCost OUTPUT_COST_PER_1M_TOKENS
  have hq : (0 : ℚ) ≤ (ot : ℚ) := by exact_mod_cast h
  split <;> positivity

/-- Auxiliary: concrete value of the query cost at one million input tokens.
`1_000_000 > 128_000`, so the large-context input rate `0.15` applies, on
top of the flat cached-content fee `0.0145125`. -/
theorem calculate_cost_query_1M :
    calculate_cost 1000000 0 "query" 0 = 0.1645125 := by
  rw [calculate_cost_query]
  norm_num [queryInputCost, queryOutputCost, CACHED_CONTENT_COST_PER_QUERY,
    PDF_TOKENS, CONTEXT_CACHING_COST_PER_1M_TOKENS, INPUT_COST_PER_1M_TOKENS]

/-- C1 counterexample: `calculate_cost` does not satisfy the claimed
five-term contract.  At one million input tokens (all other quantities
zero, default `"query"` operation) it returns `0.1645125`
(= flat cached-content fee `0.0145125` + large-context input cost `0.15`),
not `0.35`; and doubling the input tokens does not double the result,
because of the flat cached-content term, so the function is not linear. -/
theorem c1_counterexample :
    calculate_cost 1000000 0 "query" 0 = 0.1645125 ∧
    calculate_cost 1000000 0 "query" 0 ≠ 0.35 ∧
    calculate_cost 2000000 0 "query" 0 ≠ 2 * calculate_cost 1000000 0 "query" 0 := by
  have h2 : calculate_cost 2000000 0 "query" 0 = 0.3145125 := by
    rw [calculate_cost_query]
    norm_num [queryInputCost, queryOutputCost, CACHED_CONTENT_COST_PER_QUERY,
      PDF_TOKENS, CONTEXT_CACHING_COST_PER_1M_TOKENS, INPUT_COST_PER_1M_TOKENS]
  refine ⟨calculate_cost_query_1M, ?_, ?_⟩ <;>
    rw [calculate_cost_query_1M] <;> [skip; rw [h2]] <;> norm_num

/-- C1 amended: `calculate_cost(input_tokens, output_tokens, operation_type,
cache_hours)` returns the constant `INITIAL_UPLOAD_COST` for
`"initial_upload"`; the flat fee `CACHED_CONTENT_COST_PER_QUERY` plus
tier-rated input and output sub-costs for `"query"` (an affine, not linear,
function of the token counts); and `cache_hours * STORAGE_COST_PER_HOUR`
for `"storage"` (linear in `cache_hours`).  The concrete scenario yields
`0.1645125`, not `0.35`. -/
theorem c1_amended (it ot : ℤ) (ch ch' : ℚ) :
    calculate_cost it ot "initial_upload" ch = INITIAL_UPLOAD_COST ∧
    calculate_cost it ot "storage" ch = ch * STORAGE_COST_PER_HOUR ∧
    calculate_cost it ot "storage" (ch + ch') =
      calculate_cost it ot "storage" ch + calculate_cost it ot "storage" ch' ∧
    calculate_cost it ot "query" ch =
      CACHED_CONTENT_COST_PER_QUERY + queryInputCost it + queryOutputCost ot ∧
    calculate_cost 1000000 0 "query" 0 = 0.1645125 := by
  refine ⟨?_, ?_, ?_, calculate_cost_query it ot ch, calculate_cost_query_1M⟩
  · simp [calculate_cost]
  · simp [calculate_cost]
  · simp [calculate_cost]; ring

/-- C3: in the `"query"` branch of `calculate_cost`, the 128 000-token
threshold governs only the input and output sub-costs (standard rates
`0.075` / `0.30` at or below the threshold, large-context rates above it);
the cached-content term is the constant `CACHED_CONTENT_COST_PER_QUERY`,
independent of every token count and of `cache_hours`. -/
theorem c3_query_threshold (it ot : ℤ) (ch ch' : ℚ) :
    calculate_cost it ot "query" ch = calculate_cost it ot "query" ch' ∧
    calculate_cost it ot "query" ch - queryInputCost it - queryOutputCost ot =
      CACHED_CONTENT_COST_PER_QUERY ∧
    (it ≤ 128000 → queryInputCost it = ((it : ℚ) / 1000000) * 0.075) ∧
    (128000 < it → queryInputCost it = ((it : ℚ) / 1000000) * INPUT_COST_PER_1M_TOKENS) ∧
    (ot ≤ 128000 → queryOutputCost ot = ((ot : ℚ) / 1000000) * 0.30) ∧
    (128000 < ot → queryOutputCost ot = ((ot : ℚ) / 1000000) * OUTPUT_COST_PER_1M_TOKENS) := by
  refine ⟨by rw [calculate_cost_query, calculate_cost_query], ?_, ?_, ?_, ?_, ?_⟩
  · rw [calculate_cost_query]; ring
  · intro h; simp [queryInputCost, h]
  · intro h; simp [queryInputCost, not_le.mpr h]
  · intro h; simp [queryOutputCost, h]
  · intro h; simp [queryOutputCost, not_le.mpr h]

/-- Witness for C3 at the threshold boundary `it = 128000` (standard input
rate) and `ot = 200000` (large-context output rate). -/
theorem c3_query_threshold_witness :
    calculate_cost 128000 200000 "query" 1 = calculate_cost 128000 200000 "query" 2 ∧
    queryInputCost 128000 = ((128000 : ℚ) / 1000000) * 0.075 ∧
    queryOutputCost 200000 = ((200000 : ℚ) / 1000000) * OUTPUT_COST_PER_1M_TOKENS :=
  ⟨(c3_query_threshold 128000 200000 1 2).1,
   (c3_query_threshold 128000 200000 1 2).2.2.1 (by decide),
   (c3_query_threshold 128000 200000 1 2).2.2.2.2.2 (by decide)⟩

/-! ### Cache status persistence and validity (`main.py` lines 59-112) -/

/-- The `created_at` field of the persisted status JSON, as seen by
`datetime.fromisoformat(status["created_at"])`: the key can be absent
(`KeyError`), present but not a parseable ISO-8601 string (`ValueError` /
`TypeError`), or a parseable timestamp, modelled as an integer number of
seconds. -/
inductive TimeField where
  | missing : TimeField
  | malformed : TimeField
  | valid (t : ℤ) : TimeField
deriving DecidableEq, Repr

/-- The parsed contents of `global_cache_status.json` as a JSON object.
`cache_name` and `pdf_hash` are `none` when the key is absent (and for
`pdf_hash` also when it is JSON `null`, which is how `save_cache_status`
records a missing `Document.pdf`): `status.get("pdf_hash")` yields `None`
in both cases.  `isEmpty` records whether the object has no keys at all,
which is what the Python truthiness test `if not status` checks on a dict. -/
structure RawStatus where
  cache_name : Option String
  created_at : TimeField
  pdf_hash : Option String
  ttl_hours : Option ℚ
  isEmpty : Bool
deriving DecidableEq, Repr

/-- The state of the `CACHE_STATUS_FILE` on disk, as observed by
`load_cache_status`: absent, present but unreadable (I/O error), readable
but not valid JSON, or parsed to a JSON object. -/
inductive FileState where
  | absent : FileState
  | unreadable : FileState
  | malformedJSON : FileState
  | parsed (s : RawStatus) : FileState
deriving DecidableEq, Repr

/-- Function `load_cache_status()` (lines 59-67): returns the parsed JSON object,
or `None` when the file is absent, and also `None` (after logging) when
opening or parsing raises — the `try`/`except` swallows the exception. -/
def load_cache_status : FileState → Option RawStatus
  | .parsed s => some s
  | _ => none

/-- Function `save_cache_status(cache_name, created_at, pdf_hash)` (lines 69-81):
writes the one-record JSON file wholesale (the success path; a write
failure would leave the previous file state, which the lifecycle theorems
do not need). -/
def save_cache_status (cache_name : String) (created_at : ℤ)
    (pdf_hash : Option String) : FileState :=
  .parsed { cache_name := some cache_name, created_at := .valid created_at,
            pdf_hash := pdf_hash, ttl_hours := some GLOBAL_CACHE_DURATION_HOURS,
            isEmpty := false }

/-- Function `is_global_cache_valid()` (lines 93-112), with the status-file state,
the current PDF hash (`get_pdf_hash()`, `none` when `Document.pdf` is
missing) and the current time passed explicitly, and the TTL in seconds as
a parameter (the source fixes it to the module constant
`GLOBAL_CACHE_DURATION_HOURS * 3600`; see `is_global_cache_valid_prog`).
Returns `.error` when the Python code would raise an uncaught exception:
`fromisoformat` on a missing or unparseable `created_at`, or the
`status["cache_name"]` lookup on a missing key. -/
def is_global_cache_valid (ttlSeconds : ℚ) (fs : FileState)
    (current_pdf_hash : Option String) (now : ℤ) :
    Except String (Bool × Option String) :=
  match load_cache_status fs with
  | none => .ok (false, none)
  | some status =>
    if status.isEmpty then .ok (false, none)
    else if current_pdf_hash ≠ status.pdf_hash then .ok (false, none)
    else
      match status.created_at with
      | .missing => .error "KeyError"
      | .malformed => .error "ValueError"
      | .valid created_at =>
        if ((now - created_at : ℤ) : ℚ) > ttlSeconds then .ok (false, none)
        else
          match status.cache_name with
          | none => .error "KeyError"
          | some n => .ok (true, some n)

/-- The TTL in seconds actually used by the program:
`GLOBAL_CACHE_DURATION_HOURS * 3600`. -/
def GLOBAL_CACHE_TTL_SECONDS : ℚ := GLOBAL_CACHE_DURATION_HOURS * 3600

/-- Specialization of `is_global_cache_valid` at the program's fixed TTL. -/
def is_global_cache_valid_prog (fs : FileState)
    (current_pdf_hash : Option String) (now : ℤ) :
    Except String (Bool × Option String) :=
  is_global_cache_valid GLOBAL_CACHE_TTL_SECONDS fs current_pdf_hash now

/-! ### Environment: remote Gemini service, file system, naming -/

/-- The external collaborators of the cache lifecycle and conversation
code, passed explicitly: the current `Document.pdf` hash (`none` when the
file is missing, which also makes `load_stored_pdf` return `None`),
whether `genai.caching.CachedContent.get(name)` succeeds, the remote name
assigned to a cache created at a given time, the token counter
(`get_token_count`, a non-negative integer whether it comes from the exact
`count_tokens` call or the `len(text) // 4` fallback), and the generation
call (`model.generate_content`, whose failure propagates). -/
structure Env where
  current_pdf_hash : Option String
  retrieveOk : String → Bool
  newName : ℤ → String
  countTokens : String → ℕ
  generate : List String → Except String String

/-- Function `create_global_pdf_cache()` (lines 206-245), cost logging aside:
returns `None` when `Document.pdf` is missing (`load_stored_pdf` returned
`None`); otherwise creates the remote cache (its remote-assigned name
modelled by `env.newName now`) and persists the new status record via
`save_cache_status(cache.name, datetime.now(), pdf_hash)`.  The result
pairs the returned cache handle's name with the new status-file state. -/
def create_global_pdf_cache (env : Env) (now : ℤ) : Option (String × FileState) :=
  match env.current_pdf_hash with
  | none => none
  | some _ =>
    let name := env.newName now
    some (name, save_cache_status name now env.current_pdf_hash)

/-- Function `get_or_create_global_cache()` (lines 247-263): check validity; when
valid with a truthy (non-empty) cache name, try to retrieve the remote
cache and return it; on retrieval failure fall through; otherwise create a
new cache.  An exception raised by `is_global_cache_valid` propagates
(`.error`); the create path returns `none` when the document is missing. -/
def get_or_create_global_cache (env : Env) (ttlSeconds : ℚ) (fs : FileState)
    (now : ℤ) : Except String (Option (String × FileState)) :=
  match is_global_cache_valid ttlSeconds fs env.current_pdf_hash now with
  | .error e => .error e
  | .ok (is_valid, cache_name?) =>
    match cache_name? with
    | some cache_name =>
      if is_valid ∧ cache_name ≠ "" then
        if env.retrieveOk cache_name then .ok (some (cache_name, fs))
        else .ok (create_global_pdf_cache env now)
      else .ok (create_global_pdf_cache env now)
    | none => .ok (create_global_pdf_cache env now)

/-- Characterization of `is_global_cache_valid` on a well-formed stored
record (non-empty object, parseable `created_at`, present `cache_name`). -/
theorem is_global_cache_valid_parsed (ttl : ℚ) (name : String) (t now : ℤ)
    (stored current : Option String) (tt : Option ℚ) :
    is_global_cache_valid ttl
      (.parsed { cache_name := some name, created_at := .valid t,
                 pdf_hash := stored, ttl_hours := tt, isEmpty := false })
      current now =
    if current = stored then
      (if ((now - t : ℤ) : ℚ) ≤ ttl then .ok (true, some name)
       else .ok (false, none))
    else .ok (false, none) := by
  simp only [is_global_cache_valid, load_cache_status]
  split_ifs with h1 h2 h3 <;> try rfl
  all_goals simp_all
  all_goals linarith

/-- C2 counterexample: a record whose hash matches and whose age is exactly
the TTL (600 s TTL, created at `t = 0`, checked at `t = 600`) is reported
VALID by `is_global_cache_valid`, because the source expires only on the
strict inequality `elapsed > ttl`; the claim says this boundary instant is
treated as expired. -/
theorem c2_counterexample :
    is_global_cache_valid 600
      (.parsed { cache_name := some "cache1", created_at := .valid 0,
                 pdf_hash := some "h1", ttl_hours := some 24, isEmpty := false })
      (some "h1") 600 = .ok (true, some "cache1") := by
  rw [is_global_cache_valid_parsed]
  norm_num

/-- C2 amended: on a well-formed stored record, the cache is judged valid
iff the current hash equals the stored hash AND the elapsed time is at
most (≤, not strictly less than) the TTL; a hash mismatch alone, or
elapsed strictly above the TTL alone, each make it invalid.  The boundary
instant `elapsed = ttl` is treated as still valid. -/
theorem c2_amended (ttl : ℚ) (name : String) (t now : ℤ)
    (stored current : Option String) (tt : Option ℚ) :
    (is_global_cache_valid ttl
        (.parsed { cache_name := some name, created_at := .valid t,
                   pdf_hash := stored, ttl_hours := tt, isEmpty := false })
        current now = .ok (true, some name)
      ↔ (current = stored ∧ ((now - t : ℤ) : ℚ) ≤ ttl)) ∧
    (current ≠ stored →
      is_global_cache_valid ttl
        (.parsed { cache_name := some name, created_at := .valid t,
                   pdf_hash := stored, ttl_hours := tt, isEmpty := false })
        current now = .ok (false, none)) ∧
    (ttl < ((now - t : ℤ) : ℚ) →
      is_global_cache_valid ttl
        (.parsed { cache_name := some name, created_at := .valid t,
                   pdf_hash := stored, ttl_hours := tt, isEmpty := false })
        current now = .ok (false, none)) := by
  rw [is_global_cache_valid_parsed]
  refine ⟨⟨?_, ?_⟩, ?_, ?_⟩
  · intro h
    split_ifs at h with h1 h2
    · exact ⟨h1, h2⟩
    · exact absurd h (by simp)
    · exact absurd h (by simp)
  · rintro ⟨h1, h2⟩
    rw [if_pos h1, if_pos h2]
  · intro h
    rw [if_neg h]
  · intro h
    by_cases h1 : current = stored
    · rw [if_pos h1, if_neg (not_le.mpr h)]
    · rw [if_neg h1]

/-- Witness for C2 amended: at TTL 600 s, hash `"h"` on both sides,
created at 0 and checked at 600 (the boundary), the record is valid. -/
theorem c2_amended_witness :
    is_global_cache_valid 600
      (.parsed { cache_name := some "n", created_at := .valid 0,
                 pdf_hash := some "h", ttl_hours := some 24, isEmpty := false })
      (some "h") 600 = .ok (true, some "n") :=
  (c2_amended 600 "n" 0 600 (some "h") (some "h") (some 24)).1.mpr
    ⟨rfl, by norm_num⟩

/-- C6 counterexample: a status file that parses to a JSON object whose
`pdf_hash` matches the current document but whose `created_at` is not a
parseable timestamp makes `is_global_cache_valid` raise (the
`datetime.fromisoformat` call is outside any `try`/`except`), so the
error propagates to the caller instead of being treated as "no record". -/
theorem c6_counterexample :
    is_global_cache_valid_prog
      (.parsed { cache_name := some "c", created_at := .malformed,
                 pdf_hash := some "h", ttl_hours := some 24, isEmpty := false })
      (some "h") 0 = .error "ValueError" := rfl

/-- C6 amended: `load_cache_status` itself fails soft — an absent,
unreadable or JSON-malformed status file is treated as "no record" and the
validity check then reports the cache invalid without error.  But the
validity check is not fail-soft for a file that parses to a non-empty
object whose `pdf_hash` matches the current document and whose
`created_at` field is missing or ill-formed: there the uncaught
`KeyError`/`ValueError` propagates to the caller. -/
theorem c6_amended :
    (∀ (ttl : ℚ) (ch : Option String) (now : ℤ),
      load_cache_status .absent = none ∧
      load_cache_status .unreadable = none ∧
      load_cache_status .malformedJSON = none ∧
      is_global_cache_valid ttl .absent ch now = .ok (false, none) ∧
      is_global_cache_valid ttl .unreadable ch now = .ok (false, none) ∧
      is_global_cache_valid ttl .malformedJSON ch now = .ok (false, none)) ∧
    (∀ (ttl : ℚ) (name stored : Option String) (tt : Option ℚ) (now : ℤ),
      is_global_cache_valid ttl
        (.parsed { cache_name := name, created_at := .malformed,
                   pdf_hash := stored, ttl_hours := tt, isEmpty := false })
        stored now = .error "ValueError" ∧
      is_global_cache_valid ttl
        (.parsed { cache_name := name, created_at := .missing,
                   pdf_hash := stored, ttl_hours := tt, isEmpty := false })
        stored now = .error "KeyError") := by
  refine ⟨fun ttl ch now => ⟨rfl, rfl, rfl, rfl, rfl, rfl⟩, ?_⟩
  intro ttl name stored tt now
  constructor <;> simp [is_global_cache_valid, load_cache_status]

/-! ### Claims C5 and C7: `get_or_create_global_cache` behaviour -/

/-- C5: idempotence of the cache lifecycle.  With an unchanged document
and a remote service that still holds the cache, a call within the TTL
returns the stored identifier unchanged and does not recreate anything
(general first conjunct); concretely, at TTL 600 s: a call at `t = 0` with
no status file creates record R1, a call at `t = 300` returns R1's handle
and leaves the status file untouched, and a call at `t = 601` (elapsed
strictly above the TTL) creates a new record R2 whose identifier differs
from R1's. -/
theorem c5_ensure_cache_idempotent (env : Env) (h0 : String)
    (hh : env.current_pdf_hash = some h0)
    (hr : env.retrieveOk (env.newName 0) = true)
    (hn : env.newName 0 ≠ "")
    (hd : env.newName 601 ≠ env.newName 0) :
    (∀ (ttl : ℚ) (t t' : ℤ) (n : String), n ≠ "" → env.retrieveOk n = true →
      ((t' - t : ℤ) : ℚ) ≤ ttl →
      get_or_create_global_cache env ttl (save_cache_status n t (some h0)) t'
        = .ok (some (n, save_cache_status n t (some h0)))) ∧
    get_or_create_global_cache env 600 .absent 0
      = .ok (some (env.newName 0, save_cache_status (env.newName 0) 0 (some h0))) ∧
    get_or_create_global_cache env 600 (save_cache_status (env.newName 0) 0 (some h0)) 300
      = .ok (some (env.newName 0, save_cache_status (env.newName 0) 0 (some h0))) ∧
    get_or_create_global_cache env 600 (save_cache_status (env.newName 0) 0 (some h0)) 601
      = .ok (some (env.newName 601, save_cache_status (env.newName 601) 601 (some h0))) ∧
    env.newName 601 ≠ env.newName 0 := by
  have general : ∀ (ttl : ℚ) (t t' : ℤ) (n : String), n ≠ "" →
      env.retrieveOk n = true → ((t' - t : ℤ) : ℚ) ≤ ttl →
      get_or_create_global_cache env ttl (save_cache_status n t (some h0)) t'
        = .ok (some (n, save_cache_status n t (some h0))) := by
    intro ttl t t' n hne hr' hel
    unfold get_or_create_global_cache
    simp only [save_cache_status]
    rw [hh, is_global_cache_valid_parsed, if_pos rfl, if_pos hel]
    simp [hne, hr']
  refine ⟨general, ?_, ?_, ?_, hd⟩
  · unfold get_or_create_global_cache
    simp [is_global_cache_valid, load_cache_status, create_global_pdf_cache, hh]
  · exact general 600 0 300 (env.newName 0) hn hr (by norm_num)
  · unfold get_or_create_global_cache
    simp only [save_cache_status]
    rw [hh, is_global_cache_valid_parsed, if_pos rfl, if_neg (by norm_num)]
    simp [create_global_pdf_cache, hh, save_cache_status]

/-- A concrete environment: document present with hash `"abc123"`, remote
retrieval always succeeds, remote cache names derived from the creation
time, heuristic token counter, generation always answers `"ans"`. -/
def sampleEnv : Env where
  current_pdf_hash := some "abc123"
  retrieveOk := fun _ => true
  newName := fun t => "cachedContents/" ++ toString t
  countTokens := fun s => s.length / 4
  generate := fun _ => .ok "ans"

/-- Witness for C5 at the concrete environment `sampleEnv`. -/
theorem c5_ensure_cache_idempotent_witness :
    get_or_create_global_cache sampleEnv 600
        (save_cache_status (sampleEnv.newName 0) 0 (some "abc123")) 300
      = .ok (some (sampleEnv.newName 0,
          save_cache_status (sampleEnv.newName 0) 0 (some "abc123"))) ∧
    get_or_create_global_cache sampleEnv 600
        (save_cache_status (sampleEnv.newName 0) 0 (some "abc123")) 601
      = .ok (some (sampleEnv.newName 601,
          save_cache_status (sampleEnv.newName 601) 601 (some "abc123"))) :=
  ⟨(c5_ensure_cache_idempotent sampleEnv "abc123" rfl rfl (by decide)
      (by decide)).2.2.1,
   (c5_ensure_cache_idempotent sampleEnv "abc123" rfl rfl (by decide)
      (by decide)).2.2.2.1⟩

/-- C7: when the stored record is valid (hash match, within TTL, truthy
stored name) but remote retrieval of that name fails, the error is not
propagated: `get_or_create_global_cache` falls through and returns the
newly created cache handle, persisting a fresh record. -/
theorem c7_retrieval_failure_falls_through (env : Env) (ttl : ℚ)
    (name h0 : String) (t now : ℤ) (tt : Option ℚ)
    (hh : env.current_pdf_hash = some h0)
    (hn : name ≠ "")
    (hr : env.retrieveOk name = false)
    (hel : ((now - t : ℤ) : ℚ) ≤ ttl) :
    get_or_create_global_cache env ttl
      (.parsed { cache_name := some name, created_at := .valid t,
                 pdf_hash := some h0, ttl_hours := tt, isEmpty := false }) now
      = .ok (some (env.newName now,
          save_cache_status (env.newName now) now (some h0))) := by
  unfold get_or_create_global_cache
  rw [hh, is_global_cache_valid_parsed, if_pos rfl, if_pos hel]
  simp [hn, hr, create_global_pdf_cache, hh]

/-- An environment like `sampleEnv` whose remote cache retrieval always
fails (remote-side eviction). -/
def sampleEnvDown : Env where
  current_pdf_hash := some "abc123"
  retrieveOk := fun _ => false
  newName := fun t => "cachedContents/" ++ toString t
  countTokens := fun s => s.length / 4
  generate := fun _ => .ok "ans"

/-- Witness for C7: valid record, failed retrieval, new cache returned. -/
theorem c7_retrieval_failure_falls_through_witness :
    get_or_create_global_cache sampleEnvDown 600
      (.parsed { cache_name := some "n1", created_at := .valid 0,
                 pdf_hash := some "abc123", ttl_hours := none, isEmpty := false }) 300
      = .ok (some (sampleEnvDown.newName 300,
          save_cache_status (sampleEnvDown.newName 300) 300 (some "abc123"))) :=
  c7_retrieval_failure_falls_through sampleEnvDown 600 "n1" "abc123" 0 300 none
    rfl (by decide) rfl (by norm_num)

/-! ### Conversation service (`main.py` lines 265-315) and session state -/

/-- The literal part of the bilingual prompt template before the
interpolated question (the f-string in `ask_question`, lines 289-303). -/
def BILINGUAL_PROMPT_PREFIX : String :=
  "\n    Please answer the following question in TWO languages:\n    \n    Question: "

/-- The literal part of the bilingual prompt template after the question. -/
def BILINGUAL_PROMPT_SUFFIX : String :=
  "\n    \n    Please provide your response in the following format:\n    \n    English (Formal):\n    [Your detailed answer in formal English]\n    \n    Telugu (Formal):\n    [Your detailed answer in formal Telugu]\n    \n    Make sure both responses are comprehensive and professional and complete.\n    "

/-- Template `bilingual_prompt`: the fixed template with the question interpolated
(instructing one answer in formal English and one in formal Telugu under
labeled headings). -/
def bilingual_prompt (question : String) : String :=
  BILINGUAL_PROMPT_PREFIX ++ question ++ BILINGUAL_PROMPT_SUFFIX

/-- The `for q, a in history` loop of `ask_question` (lines 283-286): the
prior transcript replayed as alternating question/answer turns, in order. -/
def replay : List (String × String) → List String
  | [] => []
  | (q, a) :: rest => q :: a :: replay rest

/-- Function `get_token_count(text)` (lines 265-278): either the exact remote count
or the `len(text) // 4` fallback; both are non-negative integers, and the
choice lives in the environment's `countTokens`. -/
def get_token_count (env : Env) (text : String) : ℕ :=
  env.countTokens text

/-- Function `ask_question(cache, history, question)` (lines 280-315), with the
session-state side effect of `log_api_call` factored out (see
`send_question`): builds the combined conversation, calls the generation
API (whose failure propagates), counts tokens on the prompt and the raw
response text, and returns `response.text` unmodified together with the
two token counts. -/
def ask_question (env : Env) (history : List (String × String))
    (question : String) : Except String (String × ℕ × ℕ) :=
  let conversation := replay history ++ [bilingual_prompt question]
  match env.generate conversation with
  | .error e => .error e
  | .ok text =>
    .ok (text, get_token_count env (bilingual_prompt question),
      get_token_count env text)

/-- The Streamlit session state relevant to the ledger and transcript:
`total_input_tokens`, `total_output_tokens`, `total_cost` (lines 50-55),
`chat_history` and `global_pdf_cache` (lines 516-521). -/
structure SessionState where
  total_input_tokens : ℤ
  total_output_tokens : ℤ
  total_cost : ℚ
  chat_history : List (String × String)
  global_pdf_cache : Option String
deriving DecidableEq, Repr

/-- Function `log_api_call` (lines 164-194): computes the cost and increments the
three running-sum ledger fields of the session state. -/
def log_api_call (s : SessionState) (input_tokens output_tokens : ℤ)
    (operation_type : String) (cache_hours : ℚ) : SessionState :=
  { s with
    total_input_tokens := s.total_input_tokens + input_tokens,
    total_output_tokens := s.total_output_tokens + output_tokens,
    total_cost := s.total_cost +
      calculate_cost input_tokens output_tokens operation_type cache_hours }

/-- One completed turn of the send-button handler (lines 609-613):
`ask_question` (which logs the `"query"` cost into the ledger) followed by
appending `(question, answer)` to `chat_history`.  On a generation failure
the error propagates and the state is unchanged (nothing is appended). -/
def send_question (env : Env) (s : SessionState) (question : String) :
    Except String (String × SessionState) :=
  match ask_question env s.chat_history question with
  | .error e => .error e
  | .ok (answer, itok, otok) =>
    let s' := log_api_call s (itok : ℤ) (otok : ℤ) "query" 0
    .ok (answer, { s' with chat_history := s'.chat_history ++ [(question, answer)] })

/-- N sequential completed turns, collecting the answers in call order. -/
def run_asks (env : Env) (s : SessionState) :
    List String → Except String (List String × SessionState)
  | [] => .ok ([], s)
  | q :: qs =>
    match send_question env s q with
    | .error e => .error e
    | .ok (a, s') =>
      match run_asks env s' qs with
      | .error e => .error e
      | .ok (rest, s'') => .ok (a :: rest, s'')

/-- Modelled from the spec: the explicit full-session reset.  The source's
UI layer no longer wires a reset control (the reset button area is empty,
lines 506-513), so the reset operation itself is not in the source; the
spec (sections 3 and 6) says it "clears UsageLedger, ChatTurn sequence,
and the in-memory cache handle atomically", which matches the initial
session state of lines 50-57 and 516-521. -/
def reset_session (_s : SessionState) : SessionState :=
  { total_input_tokens := 0, total_output_tokens := 0, total_cost := 0,
    chat_history := [], global_pdf_cache := none }

theorem replay_length (h : List (String × String)) :
    (replay h).length = 2 * h.length := by
  induction h with
  | nil => rfl
  | cons qa rest ih =>
    obtain ⟨q, a⟩ := qa
    simp [replay, ih]
    ring

theorem replay_get (h : List (String × String)) :
    ∀ i, i < h.length →
      (replay h).get? (2 * i) = (h.get? i).map Prod.fst ∧
      (replay h).get? (2 * i + 1) = (h.get? i).map Prod.snd := by
  induction h with
  | nil => intro i hi; cases hi
  | cons qa rest ih =>
    obtain ⟨q, a⟩ := qa
    intro i hi
    cases i with
    | zero => simp [replay]
    | succ j =>
      have hj : j < rest.length := by simpa using hi
      have hrec := ih j hj
      constructor
      · rw [show 2 * (j + 1) = (2 * j + 1) + 1 by ring]
        simpa [replay] using hrec.1
      · rw [show 2 * (j + 1) + 1 = ((2 * j + 1) + 1) + 1 by ring]
        simpa [replay] using hrec.2

/-- C8: `ask_question` sends a single combined sequence consisting of the
full prior transcript replayed as alternating question/answer turns in
original order with no truncation (element `2i` is question `i`, element
`2i+1` is answer `i`, total length `2n + 1`), followed by exactly one
bilingual template containing the question; on success it returns the raw
model response text unmodified (no parsing or splitting). -/
theorem c8_ask_question (env : Env) (h : List (String × String)) (q t : String)
    (hgen : env.generate (replay h ++ [bilingual_prompt q]) = .ok t) :
    ask_question env h q
      = .ok (t, env.countTokens (bilingual_prompt q), env.countTokens t) ∧
    (replay h ++ [bilingual_prompt q]).length = 2 * h.length + 1 ∧
    (∀ i, i < h.length →
      (replay h ++ [bilingual_prompt q]).get? (2 * i) = (h.get? i).map Prod.fst ∧
      (replay h ++ [bilingual_prompt q]).get? (2 * i + 1) = (h.get? i).map Prod.snd) ∧
    (replay h ++ [bilingual_prompt q]).getLast? = some (bilingual_prompt q) ∧
    bilingual_prompt q = BILINGUAL_PROMPT_PREFIX ++ q ++ BILINGUAL_PROMPT_SUFFIX := by
  refine ⟨?_, ?_, ?_, ?_, rfl⟩
  · simp [ask_question, hgen, get_token_count]
  · simp [replay_length]
  · intro i hi
    have hg := replay_get h i hi
    have h1 : 2 * i < (replay h).length := by
      rw [replay_length]; omega
    have h2 : 2 * i + 1 < (replay h).length := by
      rw [replay_length]; omega
    rw [List.get?_append h1, List.get?_append h2]
    exact hg
  · exact List.getLast?_concat _

/-- Witness for C8: one prior turn, a concrete environment whose
generation call succeeds with `"ans"`. -/
theorem c8_ask_question_witness :
    ask_question sampleEnv [("q1", "a1")] "q2"
      = .ok ("ans", sampleEnv.countTokens (bilingual_prompt "q2"),
          sampleEnv.countTokens "ans") :=
  (c8_ask_question sampleEnv [("q1", "a1")] "q2" "ans" rfl).1

theorem CACHED_CONTENT_COST_PER_QUERY_nonneg : 0 ≤ CACHED_CONTENT_COST_PER_QUERY := by
  norm_num [CACHED_CONTENT_COST_PER_QUERY, PDF_TOKENS,
    CONTEXT_CACHING_COST_PER_1M_TOKENS]

theorem calculate_cost_query_nonneg (it ot : ℤ) (hi : 0 ≤ it) (ho : 0 ≤ ot) :
    0 ≤ calculate_cost it ot "query" 0 := by
  rw [calculate_cost_query]
  have h1 := queryInputCost_nonneg it hi
  have h2 := queryOutputCost_nonneg ot ho
  have h3 := CACHED_CONTENT_COST_PER_QUERY_nonneg
  linarith

/-- One completed turn appends exactly one `(question, answer)` pair to
the transcript, only increments the ledger, and leaves the cache handle
untouched. -/
theorem send_question_spec (env : Env) (s : SessionState) (q a : String)
    (s' : SessionState) (h : send_question env s q = .ok (a, s')) :
    s'.chat_history = s.chat_history ++ [(q, a)] ∧
    s.total_input_tokens ≤ s'.total_input_tokens ∧
    s.total_output_tokens ≤ s'.total_output_tokens ∧
    s.total_cost ≤ s'.total_cost ∧
    s'.global_pdf_cache = s.global_pdf_cache := by
  unfold send_question at h
  cases hq : ask_question env s.chat_history q with
  | error e => rw [hq] at h; exact absurd h (by simp)
  | ok trip =>
    obtain ⟨answer, itok, otok⟩ := trip
    rw [hq] at h
    simp only [Except.ok.injEq, Prod.mk.injEq] at h
    obtain ⟨ha, hs⟩ := h
    subst ha
    subst hs
    refine ⟨rfl, ?_, ?_, ?_, rfl⟩
    · simp [log_api_call]
    · simp [log_api_call]
    · simp [log_api_call]
      exact calculate_cost_query_nonneg itok otok (by positivity) (by positivity)

/-- N completed turns append the N `(question, answer)` pairs in call
order and only increment the ledger. -/
theorem run_asks_spec (qs : List String) :
    ∀ (env : Env) (s : SessionState) (ans : List String) (s' : SessionState),
      run_asks env s qs = .ok (ans, s') →
      s'.chat_history = s.chat_history ++ qs.zip ans ∧
      ans.length = qs.length ∧
      s.total_input_tokens ≤ s'.total_input_tokens ∧
      s.total_output_tokens ≤ s'.total_output_tokens ∧
      s.total_cost ≤ s'.total_cost ∧
      s'.global_pdf_cache = s.global_pdf_cache := by
  induction qs with
  | nil =>
    intro env s ans s' h
    simp only [run_asks, Except.ok.injEq, Prod.mk.injEq] at h
    obtain ⟨ha, hs⟩ := h
    subst ha
    subst hs
    simp
  | cons q rest ih =>
    intro env s ans s' h
    simp only [run_asks] at h
    cases hsq : send_question env s q with
    | error e => rw [hsq] at h; simp at h
    | ok p =>
      obtain ⟨a, s1⟩ := p
      rw [hsq] at h
      simp only at h
      cases hr : run_asks env s1 rest with
      | error e => rw [hr] at h; simp at h
      | ok p2 =>
        obtain ⟨ans2, s2⟩ := p2
        rw [hr] at h
        simp only [Except.ok.injEq, Prod.mk.injEq] at h
        obtain ⟨ha, hs⟩ := h
        subst ha
        subst hs
        have hstep := send_question_spec env s q a s1 hsq
        have hrest := ih env s1 ans2 s2 hr
        refine ⟨?_, ?_, ?_, ?_, ?_, ?_⟩
        · rw [hrest.1, hstep.1, List.zip_cons_cons, List.append_assoc]
          rfl
        · simp [hrest.2.1]
        · exact le_trans hstep.2.1 hrest.2.2.1
        · exact le_trans hstep.2.2.1 hrest.2.2.2.1
        · exact le_trans hstep.2.2.2.1 hrest.2.2.2.2.1
        · rw [hrest.2.2.2.2.2, hstep.2.2.2.2]

/-- C9: session-state invariant.  Any successful sequence of N completed
turns appends exactly the N `(question, answer)` pairs, in call order, to
the end of the transcript, and the three ledger fields only grow (each
completed call adds a non-negative increment); no turn touches the cache
handle.  Starting from a reset state the transcript is exactly
`zip qs answers`.  The reset operation clears the ledger, the transcript
and the in-memory cache handle in one step. -/
theorem c9_session_invariant :
    (∀ (env : Env) (s : SessionState) (qs ans : List String) (s' : SessionState),
      run_asks env s qs = .ok (ans, s') →
      s'.chat_history = s.chat_history ++ qs.zip ans ∧
      ans.length = qs.length ∧
      s.total_input_tokens ≤ s'.total_input_tokens ∧
      s.total_output_tokens ≤ s'.total_output_tokens ∧
      s.total_cost ≤ s'.total_cost ∧
      s'.global_pdf_cache = s.global_pdf_cache) ∧
    (∀ (env : Env) (qs ans : List String) (s s' : SessionState),
      run_asks env (reset_session s) qs = .ok (ans, s') →
      s'.chat_history = qs.zip ans) ∧
    (∀ s : SessionState,
      (reset_session s).total_input_tokens = 0 ∧
      (reset_session s).total_output_tokens = 0 ∧
      (reset_session s).total_cost = 0 ∧
      (reset_session s).chat_history = [] ∧
      (reset_session s).global_pdf_cache = none) := by
  refine ⟨fun env s qs ans s' h => run_asks_spec qs env s ans s' h, ?_, ?_⟩
  · intro env qs ans s s' h
    have := (run_asks_spec qs env (reset_session s) ans s' h).1
    simpa [reset_session] using this
  · intro s
    exact ⟨rfl, rfl, rfl, rfl, rfl⟩

/-- An environment whose token counter always reports zero, so the ledger
arithmetic of a concrete run is easy to evaluate. -/
def zeroTokenEnv : Env where
  current_pdf_hash := some "abc123"
  retrieveOk := fun _ => true
  newName := fun t => "c" ++ toString t
  countTokens := fun _ => 0
  generate := fun _ => .ok "ans"

/-- Witness for C9: a concrete two-question run from a reset state yields
the transcript `[("q1","ans"), ("q2","ans")]` and the stated ledger facts. -/
theorem c9_session_invariant_witness :
    (⟨0, 0, 0.029025, [("q1", "ans"), ("q2", "ans")], none⟩ :
        SessionState).chat_history = ["q1", "q2"].zip ["ans", "ans"] ∧
    ((reset_session ⟨7, 8, 9, [("x", "y")], some "c"⟩).total_cost ≤
      (⟨0, 0, 0.029025, [("q1", "ans"), ("q2", "ans")], none⟩ :
        SessionState).total_cost) :=
  have hrun : run_asks zeroTokenEnv (reset_session ⟨7, 8, 9, [("x", "y")], some "c"⟩)
      ["q1", "q2"] = .ok (["ans", "ans"],
        ⟨0, 0, 0.029025, [("q1", "ans"), ("q2", "ans")], none⟩) := by
    with_unfolding_all rfl
  ⟨c9_session_invariant.2.1 zeroTokenEnv ["q1", "q2"] ["ans", "ans"]
      ⟨7, 8, 9, [("x", "y")], some "c"⟩ _ hrun,
   (c9_session_invariant.1 zeroTokenEnv (reset_session ⟨7, 8, 9, [("x", "y")], some "c"⟩)
      ["q1", "q2"] ["ans", "ans"] _ hrun).2.2.2.2.1⟩

/-- C4 counterexample: `calculate_cost` neither rejects nor clamps a
negative token count.  At `input_tokens = -1_000_000` (operation
`"query"`) the negative quantity flows into the input-cost term and the
returned total is the negative value `-0.0604875`
(= `0.0145125 - 0.075`); under clamping the result would have been the
value at zero tokens, `0.0145125`, and under rejection no value at all. -/
theorem c4_counterexample :
    calculate_cost (-1000000) 0 "query" 0 = -0.0604875 ∧
    calculate_cost (-1000000) 0 "query" 0 < 0 ∧
    calculate_cost (-1000000) 0 "query" 0 ≠ calculate_cost 0 0 "query" 0 := by
  have h1 : calculate_cost (-1000000) 0 "query" 0 = -0.0604875 := by
    rw [calculate_cost_query]
    norm_num [queryInputCost, queryOutputCost, CACHED_CONTENT_COST_PER_QUERY,
      PDF_TOKENS, CONTEXT_CACHING_COST_PER_1M_TOKENS]
  have h0 : calculate_cost 0 0 "query" 0 = 0.0145125 := by
    rw [calculate_cost_query]
    norm_num [queryInputCost, queryOutputCost, CACHED_CONTENT_COST_PER_QUERY,
      PDF_TOKENS, CONTEXT_CACHING_COST_PER_1M_TOKENS]
  refine ⟨h1, ?_, ?_⟩ <;> rw [h1] <;> [norm_num; rw [h0]] <;> norm_num

/-- C4 amended: `calculate_cost` performs no validation of its inputs.  A
negative token count flows through the arithmetic at the standard ≤128K
rate, producing a query cost strictly below the flat cached-content fee
(a negative input-cost contribution); a negative `cache_hours` likewise
produces a negative storage cost. -/
theorem c4_amended :
    (∀ it : ℤ, it < 0 →
      calculate_cost it 0 "query" 0 =
        CACHED_CONTENT_COST_PER_QUERY + ((it : ℚ) / 1000000) * 0.075 ∧
      calculate_cost it 0 "query" 0 < CACHED_CONTENT_COST_PER_QUERY) ∧
    (∀ ch : ℚ, ch < 0 → calculate_cost 0 0 "storage" ch < 0) := by
  constructor
  · intro it hneg
    have hle : it ≤ 128000 := by omega
    have hq : ((it : ℚ) / 1000000) * 0.075 < 0 := by
      have hit : (it : ℚ) < 0 := by exact_mod_cast hneg
      have h6 : (it : ℚ) / 1000000 < 0 := div_neg_of_neg_of_pos hit (by norm_num)
      nlinarith
    have heq : calculate_cost it 0 "query" 0 =
        CACHED_CONTENT_COST_PER_QUERY + ((it : ℚ) / 1000000) * 0.075 := by
      rw [calculate_cost_query]
      simp [queryInputCost, queryOutputCost, hle]
    exact ⟨heq, by rw [heq]; linarith⟩
  · intro ch hneg
    have hpos : 0 < STORAGE_COST_PER_HOUR := by
      norm_num [STORAGE_COST_PER_HOUR, PDF_TOKENS, CONTEXT_CACHING_STORAGE_PER_HOUR]
    have : calculate_cost 0 0 "storage" ch = ch * STORAGE_COST_PER_HOUR := by
      simp [calculate_cost]
    rw [this]
    exact mul_neg_of_neg_of_pos hneg hpos

/-- Witness for C4 amended at `input_tokens = -1_000_000` and
`cache_hours = -2`. -/
theorem c4_amended_witness :
    calculate_cost (-1000000) 0 "query" 0 < CACHED_CONTENT_COST_PER_QUERY ∧
    calculate_cost 0 0 "storage" (-2) < 0 :=
  ⟨(c4_amended.1 (-1000000) (by norm_num)).2, c4_amended.2 (-2) (by norm_num)⟩

/-- C10: any `operation_type` other than the three recognized strings
makes `calculate_cost` return exactly `0.0`, silently, for all token and
hour inputs. -/
theorem c10_unknown_operation_zero (it ot : ℤ) (ch : ℚ) (op : String)
    (h1 : op ≠ "initial_upload") (h2 : op ≠ "query") (h3 : op ≠ "storage") :
    calculate_cost it ot op ch = 0 := by
  simp [calculate_cost, h1, h2, h3]

/-- Witness for C10 at the unrecognized operation type `"refund"`. -/
theorem c10_unknown_operation_zero_witness :
    calculate_cost 5 7 "refund" 3 = 0 :=
  c10_unknown_operation_zero 5 7 3 "refund" (by decide) (by decide) (by decide)
